import Mathlib

/-!
# Verification of the AMQP-CPP channel state machine (`src/include/channelimpl.h`)

This file shallowly embeds the `AMQP::ChannelImpl` class: its state record
(channel id, connectivity state, transaction flag, handler attachment), the
report methods whose bodies appear inline in the header, and the send-type
operations.  The send-type operations (`pause`, `resume`, the transaction
operations, the topology operations, `close`, `send`) are only *declared* in
the header — their bodies live in an implementation file that is not part of
the analysed sources — so those are modelled from the specification and marked
as such in their doc comments.

The external collaborators are modelled effectfully:
  * the `ChannelHandler` callbacks become a list of emitted `HandlerEvent`s
    (an empty list when `_handler` is a null pointer);
  * the `Connection` becomes an oracle telling, for each channel number and
    frame, how many bytes the transport reports as sent;
  * frames handed to the connection are collected in a list of `Frame`s.
-/

namespace AMQP

/-- The anonymous connectivity-state enum of `ChannelImpl`
(`channelimpl.h`, lines 50-53): the channel is either connected or closed. -/
inductive ChannelState
  | state_connected
  | state_closed
  deriving DecidableEq, Repr

/-- The `ExchangeType` enumeration (external to the analysed header; the
channel merely passes it through to frame construction). -/
inductive ExchangeType
  | fanout
  | direct
  | topic
  | headers
  deriving DecidableEq, Repr

/-- An opaque ordered key-value argument table (`AMQP::Table`), passed through
verbatim by the channel; its entries never matter to the channel itself. -/
structure Table where
  pairs : List (String × String)
  deriving DecidableEq, Repr

/-- The protocol request frames the channel can construct, one per send-type
operation, carrying exactly the arguments of that operation.  Frame encoding
is external; the channel only builds and hands over the frame. -/
inductive Frame
  | channelFlowPause
  | channelFlowResume
  | txSelect
  | txCommit
  | txRollback
  | exchangeDeclare (name : String) (etype : ExchangeType) (flags : Int) (arguments : Table)
  | exchangeBind (source : String) (target : String) (routingkey : String) (flags : Int) (arguments : Table)
  | exchangeUnbind (source : String) (target : String) (routingkey : String) (flags : Int) (arguments : Table)
  | exchangeDelete (name : String) (flags : Int)
  | queueDeclare (name : String) (flags : Int) (arguments : Table)
  | queueBind (exchangeName : String) (queueName : String) (routingkey : String) (flags : Int) (arguments : Table)
  | queueUnbind (exchangeName : String) (queueName : String) (routingkey : String) (arguments : Table)
  | queuePurge (name : String) (flags : Int)
  | queueDelete (name : String) (flags : Int)
  | channelClose
  deriving DecidableEq, Repr

/-- The `ChannelHandler` callbacks (one per event, see the handler interface
used by the report methods).  Counter arguments are the `uint32_t` values the
broker reported, embedded as naturals; they are only passed through, never
computed with. -/
inductive HandlerEvent
  | onClosed
  | onPaused
  | onResumed
  | onReady
  | onError (message : String)
  | onExchangeDeclared
  | onExchangeDeleted
  | onExchangeBound
  | onExchangeUnbound
  | onQueueDeclared (queueName : String) (messageCount : Nat) (consumerCount : Nat)
  | onQueueBound
  | onQueueUnbound
  | onQueueDeleted (messageCount : Nat)
  | onQueuePurged (messageCount : Nat)
  deriving DecidableEq, Repr

/-- The state of a `ChannelImpl` object (`channelimpl.h`, lines 19-69):
the `uint16_t` channel number `_id`, the connectivity state `_state`, the
transaction flag `_transaction`, and whether the nullable `_handler` pointer
is non-null.  The `_parent` and `_connection` back-pointers are pointers to
the external collaborators; their effect is modelled by the emitted
`HandlerEvent`/`Frame` lists and the connection oracle. -/
structure ChannelImpl where
  _id : Nat
  _state : ChannelState
  _transaction : Bool
  _handler : Bool
  deriving DecidableEq, Repr

/-- The `Connection` collaborator, reduced to what the channel observes of it:
for a channel number and a frame, the number of bytes the transport reports
as sent (`size_t`, hence a natural; `0` signals transport send failure). -/
structure Connection where
  sendBytes : Nat → Frame → Nat

/-- A freshly constructed channel: the member initializers in the header give
`_state = state_connected` (line 53) and `_transaction = false` (line 59); the
channel number and the (possibly null, i.e. absent) handler come from the
constructor arguments (lines 62-72). -/
def newChannel (id : Nat) (handler : Bool) : ChannelImpl :=
  { _id := id, _state := ChannelState.state_connected, _transaction := false, _handler := handler }

/-- `ChannelImpl::connected` (lines 104-107): `return _state == state_connected;`. -/
def ChannelImpl.connected (ch : ChannelImpl) : Bool :=
  ch._state = ChannelState.state_connected

/-- `ChannelImpl::id` (lines 223-226): returns `_id`. -/
def ChannelImpl.id (ch : ChannelImpl) : Nat :=
  ch._id

/-- `ChannelImpl::reportClosed` (lines 238-245): sets `_state = state_closed`,
then `if (_handler) _handler->onClosed(_parent);`. -/
def ChannelImpl.reportClosed (ch : ChannelImpl) : ChannelImpl × List HandlerEvent :=
  ({ ch with _state := ChannelState.state_closed },
   if ch._handler then [HandlerEvent.onClosed] else [])

/-- `ChannelImpl::reportPaused` (lines 250-254): `if (_handler) _handler->onPaused(_parent);`. -/
def ChannelImpl.reportPaused (ch : ChannelImpl) : ChannelImpl × List HandlerEvent :=
  (ch, if ch._handler then [HandlerEvent.onPaused] else [])

/-- `ChannelImpl::reportResumed` (lines 259-263): `if (_handler) _handler->onResumed(_parent);`. -/
def ChannelImpl.reportResumed (ch : ChannelImpl) : ChannelImpl × List HandlerEvent :=
  (ch, if ch._handler then [HandlerEvent.onResumed] else [])

/-- `ChannelImpl::reportReady` (lines 268-272): `if (_handler) _handler->onReady(_parent);`. -/
def ChannelImpl.reportReady (ch : ChannelImpl) : ChannelImpl × List HandlerEvent :=
  (ch, if ch._handler then [HandlerEvent.onReady] else [])

/-- `ChannelImpl::reportChannelError` (lines 278-285): sets
`_state = state_closed`, then `if (_handler) _handler->onError(_parent, message);`. -/
def ChannelImpl.reportChannelError (ch : ChannelImpl) (message : String) : ChannelImpl × List HandlerEvent :=
  ({ ch with _state := ChannelState.state_closed },
   if ch._handler then [HandlerEvent.onError message] else [])

/-- `ChannelImpl::reportExchangeDeclared` (lines 290-293). -/
def ChannelImpl.reportExchangeDeclared (ch : ChannelImpl) : ChannelImpl × List HandlerEvent :=
  (ch, if ch._handler then [HandlerEvent.onExchangeDeclared] else [])

/-- `ChannelImpl::reportExchangeDeleted` (lines 298-301). -/
def ChannelImpl.reportExchangeDeleted (ch : ChannelImpl) : ChannelImpl × List HandlerEvent :=
  (ch, if ch._handler then [HandlerEvent.onExchangeDeleted] else [])

/-- `ChannelImpl::reportExchangeBound` (lines 306-309). -/
def ChannelImpl.reportExchangeBound (ch : ChannelImpl) : ChannelImpl × List HandlerEvent :=
  (ch, if ch._handler then [HandlerEvent.onExchangeBound] else [])

/-- `ChannelImpl::reportExchangeUnbound` (lines 314-317). -/
def ChannelImpl.reportExchangeUnbound (ch : ChannelImpl) : ChannelImpl × List HandlerEvent :=
  (ch, if ch._handler then [HandlerEvent.onExchangeUnbound] else [])

/-- `ChannelImpl::reportQueueDeclared` (lines 325-328): passes the queue name
and both broker-reported counters through to `onQueueDeclared` verbatim. -/
def ChannelImpl.reportQueueDeclared (ch : ChannelImpl) (queueName : String) (messageCount consumerCount : Nat) : ChannelImpl × List HandlerEvent :=
  (ch, if ch._handler then [HandlerEvent.onQueueDeclared queueName messageCount consumerCount] else [])

/-- `ChannelImpl::reportQueueBound` (lines 333-336). -/
def ChannelImpl.reportQueueBound (ch : ChannelImpl) : ChannelImpl × List HandlerEvent :=
  (ch, if ch._handler then [HandlerEvent.onQueueBound] else [])

/-- `ChannelImpl::reportQueueUnbound` (lines 341-344). -/
def ChannelImpl.reportQueueUnbound (ch : ChannelImpl) : ChannelImpl × List HandlerEvent :=
  (ch, if ch._handler then [HandlerEvent.onQueueUnbound] else [])

/-- `ChannelImpl::reportQueueDeleted` (lines 350-353): passes the
broker-reported message count through to `onQueueDeleted` verbatim. -/
def ChannelImpl.reportQueueDeleted (ch : ChannelImpl) (messageCount : Nat) : ChannelImpl × List HandlerEvent :=
  (ch, if ch._handler then [HandlerEvent.onQueueDeleted messageCount] else [])

/-- `ChannelImpl::reportQueuePurged` (lines 359-362): passes the
broker-reported message count through to `onQueuePurged` verbatim. -/
def ChannelImpl.reportQueuePurged (ch : ChannelImpl) (messageCount : Nat) : ChannelImpl × List HandlerEvent :=
  (ch, if ch._handler then [HandlerEvent.onQueuePurged messageCount] else [])

/-- Modelled from the spec: `ChannelImpl::send` (declared at lines 228-233 of
the header with return type `size_t`, body in the implementation file) hands
the frame to the owning connection for this channel's number and returns the
number of bytes sent; being a `size_t` the result is a natural number, with
`0` the only way transport failure can show. -/
def ChannelImpl.send (conn : Connection) (ch : ChannelImpl) (frame : Frame) : Nat :=
  conn.sendBytes ch._id frame

/-- The observable outcome of one call into the channel: the channel state
afterwards, the frames handed to the connection, the handler callbacks
invoked, and the returned boolean (`none` for the `void` report methods). -/
structure StepResult where
  channel : ChannelImpl
  frames : List Frame
  notifications : List HandlerEvent
  result : Option Bool
  deriving DecidableEq, Repr

/-- Modelled from the spec: the uniform shape shared by every send-type
operation (pause, resume, the transaction operations, the topology
operations, close — all declared in the header, bodies in the implementation
file).  Per sections 4.1-4.4 and 7 of the spec: if the connectivity state is
not `Connected` the operation fails immediately — returns `false` and sends
nothing; otherwise it constructs the request frame, hands it to the
connection, and returns whether the send succeeded (a positive byte count);
a failed send does not change the connectivity state. -/
def opStep (conn : Connection) (ch : ChannelImpl) (frame : Frame) : StepResult :=
  if ch._state = ChannelState.state_connected then
    { channel := ch, frames := [frame], notifications := [],
      result := some (decide (0 < ChannelImpl.send conn ch frame)) }
  else
    { channel := ch, frames := [], notifications := [], result := some false }

/-- Modelled from the spec (sections 4.3 and 8): the transaction-ack report —
the `reportReady`-style callback by which the broker's acknowledgment of a
start-transaction request reaches the channel.  No such report method appears
in the analysed header (the reply-dispatch half is not among the sources), so
it is modelled from the spec's words: the acknowledgment, and only it, sets
the transaction flag to `true`; the handler is notified `reportReady`-style. -/
def ChannelImpl.reportTransactionStarted (ch : ChannelImpl) : ChannelImpl × List HandlerEvent :=
  ({ ch with _transaction := true },
   if ch._handler then [HandlerEvent.onReady] else [])

/-- Modelled from the spec (sections 4.3 and 8): the commit acknowledgment
report (absent from the analysed header, see `reportTransactionStarted`):
resets the transaction flag to `false` and notifies `reportReady`-style. -/
def ChannelImpl.reportTransactionCommitted (ch : ChannelImpl) : ChannelImpl × List HandlerEvent :=
  ({ ch with _transaction := false },
   if ch._handler then [HandlerEvent.onReady] else [])

/-- Modelled from the spec (sections 4.3 and 8): the rollback acknowledgment
report (absent from the analysed header, see `reportTransactionStarted`):
resets the transaction flag to `false` and notifies `reportReady`-style. -/
def ChannelImpl.reportTransactionRolledBack (ch : ChannelImpl) : ChannelImpl × List HandlerEvent :=
  ({ ch with _transaction := false },
   if ch._handler then [HandlerEvent.onReady] else [])

/-- One call into the channel: a send-type operation (carrying the operation's
arguments) or a report delivered by the owning connection. -/
inductive Event
  | pause
  | resume
  | startTransaction
  | commitTransaction
  | rollbackTransaction
  | declareExchange (name : String) (etype : ExchangeType) (flags : Int) (arguments : Table)
  | bindExchange (source : String) (target : String) (routingkey : String) (flags : Int) (arguments : Table)
  | unbindExchange (source : String) (target : String) (routingkey : String) (flags : Int) (arguments : Table)
  | removeExchange (name : String) (flags : Int)
  | declareQueue (name : String) (flags : Int) (arguments : Table)
  | bindQueue (exchangeName : String) (queueName : String) (routingkey : String) (flags : Int) (arguments : Table)
  | unbindQueue (exchangeName : String) (queueName : String) (routingkey : String) (arguments : Table)
  | purgeQueue (name : String) (flags : Int)
  | removeQueue (name : String) (flags : Int)
  | close
  | reportClosed
  | reportPaused
  | reportResumed
  | reportReady
  | reportChannelError (message : String)
  | reportExchangeDeclared
  | reportExchangeDeleted
  | reportExchangeBound
  | reportExchangeUnbound
  | reportQueueDeclared (queueName : String) (messageCount : Nat) (consumerCount : Nat)
  | reportQueueBound
  | reportQueueUnbound
  | reportQueueDeleted (messageCount : Nat)
  | reportQueuePurged (messageCount : Nat)
  | reportTransactionStarted
  | reportTransactionCommitted
  | reportTransactionRolledBack
  deriving DecidableEq, Repr

/-- Whether the event is one of the fifteen send-type operations (the
bool-returning methods that emit a protocol frame), as opposed to a report. -/
def Event.isSendOp : Event → Bool
  | .pause | .resume
  | .startTransaction | .commitTransaction | .rollbackTransaction
  | .declareExchange _ _ _ _ | .bindExchange _ _ _ _ _ | .unbindExchange _ _ _ _ _
  | .removeExchange _ _ | .declareQueue _ _ _ | .bindQueue _ _ _ _ _
  | .unbindQueue _ _ _ _ | .purgeQueue _ _ | .removeQueue _ _ | .close => true
  | _ => false

/-- Lift a report method's `(state, notifications)` pair to a `StepResult`:
reports send no frames and return no boolean. -/
def reportStep (r : ChannelImpl × List HandlerEvent) : StepResult :=
  { channel := r.1, frames := [], notifications := r.2, result := none }

/-- Dispatch one event to the corresponding channel method.  Send-type
operations go through `opStep` with the frame built from the event's
arguments (each operation constructs exactly its own request frame, spec
section 4.4); reports go through the report methods embedded above. -/
def step (conn : Connection) (ch : ChannelImpl) : Event → StepResult
  | .pause => opStep conn ch Frame.channelFlowPause
  | .resume => opStep conn ch Frame.channelFlowResume
  | .startTransaction => opStep conn ch Frame.txSelect
  | .commitTransaction => opStep conn ch Frame.txCommit
  | .rollbackTransaction => opStep conn ch Frame.txRollback
  | .declareExchange name etype flags arguments => opStep conn ch (Frame.exchangeDeclare name etype flags arguments)
  | .bindExchange source target routingkey flags arguments => opStep conn ch (Frame.exchangeBind source target routingkey flags arguments)
  | .unbindExchange source target routingkey flags arguments => opStep conn ch (Frame.exchangeUnbind source target routingkey flags arguments)
  | .removeExchange name flags => opStep conn ch (Frame.exchangeDelete name flags)
  | .declareQueue name flags arguments => opStep conn ch (Frame.queueDeclare name flags arguments)
  | .bindQueue exchangeName queueName routingkey flags arguments => opStep conn ch (Frame.queueBind exchangeName queueName routingkey flags arguments)
  | .unbindQueue exchangeName queueName routingkey arguments => opStep conn ch (Frame.queueUnbind exchangeName queueName routingkey arguments)
  | .purgeQueue name flags => opStep conn ch (Frame.queuePurge name flags)
  | .removeQueue name flags => opStep conn ch (Frame.queueDelete name flags)
  | .close => opStep conn ch Frame.channelClose
  | .reportClosed => reportStep ch.reportClosed
  | .reportPaused => reportStep ch.reportPaused
  | .reportResumed => reportStep ch.reportResumed
  | .reportReady => reportStep ch.reportReady
  | .reportChannelError message => reportStep (ch.reportChannelError message)
  | .reportExchangeDeclared => reportStep ch.reportExchangeDeclared
  | .reportExchangeDeleted => reportStep ch.reportExchangeDeleted
  | .reportExchangeBound => reportStep ch.reportExchangeBound
  | .reportExchangeUnbound => reportStep ch.reportExchangeUnbound
  | .reportQueueDeclared queueName messageCount consumerCount => reportStep (ch.reportQueueDeclared queueName messageCount consumerCount)
  | .reportQueueBound => reportStep ch.reportQueueBound
  | .reportQueueUnbound => reportStep ch.reportQueueUnbound
  | .reportQueueDeleted messageCount => reportStep (ch.reportQueueDeleted messageCount)
  | .reportQueuePurged messageCount => reportStep (ch.reportQueuePurged messageCount)
  | .reportTransactionStarted => reportStep ch.reportTransactionStarted
  | .reportTransactionCommitted => reportStep ch.reportTransactionCommitted
  | .reportTransactionRolledBack => reportStep ch.reportTransactionRolledBack

/-- Run a sequence of events, threading the channel state through. -/
def runEvents (conn : Connection) (ch : ChannelImpl) : List Event → ChannelImpl
  | [] => ch
  | e :: rest => runEvents conn (step conn ch e).channel rest

/-- A concrete connection whose transport always reports 12 bytes sent. -/
def okConn : Connection :=
  { sendBytes := fun _ _ => 12 }

/-- A concrete connection whose transport always fails (0 bytes sent). -/
def failConn : Connection :=
  { sendBytes := fun _ _ => 0 }

/-- A concrete channel that is already closed, with a handler attached. -/
def chClosed : ChannelImpl :=
  { _id := 2, _state := ChannelState.state_closed, _transaction := false, _handler := true }

/-- A concrete channel with no handler attached (`_handler` null). -/
def chNoHandler : ChannelImpl :=
  { _id := 3, _state := ChannelState.state_connected, _transaction := false, _handler := false }

/-- A concrete connected channel with a handler attached and an active
transaction flag. -/
def chTx : ChannelImpl :=
  { _id := 4, _state := ChannelState.state_connected, _transaction := true, _handler := true }

/-- A send-type operation never changes the channel record, in either branch. -/
theorem opStep_channel (conn : Connection) (ch : ChannelImpl) (frame : Frame) :
    (opStep conn ch frame).channel = ch := by
  unfold opStep
  split <;> rfl

/-- When the channel is not connected, a send-type operation fails with
`false`, hands no frame over, invokes no callback and keeps the state. -/
theorem opStep_not_connected (conn : Connection) (ch : ChannelImpl) (frame : Frame)
    (hs : ch._state ≠ ChannelState.state_connected) :
    opStep conn ch frame =
      { channel := ch, frames := [], notifications := [], result := some false } := by
  unfold opStep
  rw [if_neg hs]

/-- Any step from a closed channel leaves the channel closed. -/
theorem step_closed_absorbing (conn : Connection) (ch : ChannelImpl) (e : Event)
    (h : ch._state = ChannelState.state_closed) :
    (step conn ch e).channel._state = ChannelState.state_closed := by
  cases e <;>
    simp [step, reportStep, opStep_channel, h, ChannelImpl.reportClosed,
      ChannelImpl.reportPaused, ChannelImpl.reportResumed, ChannelImpl.reportReady,
      ChannelImpl.reportChannelError, ChannelImpl.reportExchangeDeclared,
      ChannelImpl.reportExchangeDeleted, ChannelImpl.reportExchangeBound,
      ChannelImpl.reportExchangeUnbound, ChannelImpl.reportQueueDeclared,
      ChannelImpl.reportQueueBound, ChannelImpl.reportQueueUnbound,
      ChannelImpl.reportQueueDeleted, ChannelImpl.reportQueuePurged,
      ChannelImpl.reportTransactionStarted, ChannelImpl.reportTransactionCommitted,
      ChannelImpl.reportTransactionRolledBack]

/-- A closed channel stays closed over any sequence of events. -/
theorem runEvents_closed (conn : Connection) (ch : ChannelImpl) (evs : List Event)
    (h : ch._state = ChannelState.state_closed) :
    (runEvents conn ch evs)._state = ChannelState.state_closed := by
  induction evs generalizing ch with
  | nil => exact h
  | cons e rest ih =>
    simp only [runEvents]
    exact ih _ (step_closed_absorbing conn ch e h)

/-- On a channel that is not connected, every send-type operation returns
`false` and hands no frame to the connection. -/
theorem step_sendOp_not_connected (conn : Connection) (ch : ChannelImpl) (e : Event)
    (hs : ch._state ≠ ChannelState.state_connected) (he : e.isSendOp = true) :
    (step conn ch e).result = some false ∧ (step conn ch e).frames = [] := by
  cases e <;> simp [Event.isSendOp] at he <;>
    simp [step, opStep_not_connected conn ch _ hs]

/-- C1: for every channel, once `reportClosed` or `reportChannelError` has
been invoked, `connected()` returns false permanently — no later operation or
report returns the connectivity state to `Connected` — and every subsequent
call to any send-type operation returns `false` without invoking the
transport (no frame is handed to the connection). -/
theorem closed_is_permanent (conn : Connection) (ch ch1 : ChannelImpl)
    (message : String) (evs : List Event) (e : Event)
    (h0 : ch1 = ch.reportClosed.1 ∨ ch1 = (ch.reportChannelError message).1)
    (he : e.isSendOp = true) :
    (runEvents conn ch1 evs).connected = false ∧
    (step conn (runEvents conn ch1 evs) e).result = some false ∧
    (step conn (runEvents conn ch1 evs) e).frames = [] := by
  have h1 : ch1._state = ChannelState.state_closed := by
    rcases h0 with h | h <;> subst h <;> rfl
  have h2 := runEvents_closed conn ch1 evs h1
  have h3 : (runEvents conn ch1 evs)._state ≠ ChannelState.state_connected := by
    rw [h2]
    exact fun hcontra => ChannelState.noConfusion hcontra
  refine ⟨?_, step_sendOp_not_connected conn _ e h3 he⟩
  simp [ChannelImpl.connected, h2]

/-- Witness for C1 at a fresh channel with id 1: after `reportClosed` and two
further events, `connected()` is false and a `close` attempt fails with no
frame sent. -/
theorem closed_is_permanent_witness :
    (runEvents okConn ((newChannel 1 true).reportClosed.1) [Event.reportReady, Event.pause]).connected = false ∧
    (step okConn (runEvents okConn ((newChannel 1 true).reportClosed.1) [Event.reportReady, Event.pause]) Event.close).result = some false ∧
    (step okConn (runEvents okConn ((newChannel 1 true).reportClosed.1) [Event.reportReady, Event.pause]) Event.close).frames = [] :=
  closed_is_permanent okConn (newChannel 1 true) ((newChannel 1 true).reportClosed.1)
    "" [Event.reportReady, Event.pause] Event.close (Or.inl rfl) (by decide)

/-- C2: every operation that emits a protocol frame (pause, resume, the three
transaction operations, the nine topology operations, close) fails
immediately — returns `false` and hands nothing to the connection — whenever
the channel's connectivity state is not `Connected`. -/
theorem sendOp_fails_when_not_connected (conn : Connection) (ch : ChannelImpl) (e : Event)
    (hs : ch._state ≠ ChannelState.state_connected) (he : e.isSendOp = true) :
    (step conn ch e).result = some false ∧ (step conn ch e).frames = [] :=
  step_sendOp_not_connected conn ch e hs he

/-- Witness for C2: `declareQueue` on a concrete closed channel returns
`false` and sends no frame. -/
theorem sendOp_fails_when_not_connected_witness :
    (step okConn chClosed (Event.declareQueue "q1" 0 { pairs := [] })).result = some false ∧
    (step okConn chClosed (Event.declareQueue "q1" 0 { pairs := [] })).frames = [] :=
  sendOp_fails_when_not_connected okConn chClosed (Event.declareQueue "q1" 0 { pairs := [] })
    (by decide) (by decide)

/-- C7: calling `close()` on a channel whose connectivity state is already
`Closed` returns `false` and sends no frame; otherwise `close()` constructs
and sends the channel-close request frame and returns whether the send
succeeded (a positive byte count), not broker confirmation. -/
theorem close_on_closed_channel (conn : Connection) (ch : ChannelImpl) :
    (ch._state = ChannelState.state_closed →
      (step conn ch Event.close).result = some false ∧
      (step conn ch Event.close).frames = []) ∧
    (ch._state = ChannelState.state_connected →
      (step conn ch Event.close).frames = [Frame.channelClose] ∧
      (step conn ch Event.close).result =
        some (decide (0 < ChannelImpl.send conn ch Frame.channelClose))) := by
  constructor
  · intro h
    have hs : ch._state ≠ ChannelState.state_connected := by
      rw [h]
      exact fun hcontra => ChannelState.noConfusion hcontra
    simp [step, opStep_not_connected conn ch _ hs]
  · intro h
    simp [step, opStep, h]

/-- Witness for C7: on a concrete already-closed channel, `close()` returns
`false` and sends nothing. -/
theorem close_on_closed_channel_witness :
    (step okConn chClosed Event.close).result = some false ∧
    (step okConn chClosed Event.close).frames = [] :=
  (close_on_closed_channel okConn chClosed).1 rfl

/-- C10: `send` returns a `size_t` byte count, embedded as a natural number,
so a negative send result is unrepresentable; on a connected channel a
send-type operation reports failure exactly when the transport reported 0
bytes sent. -/
theorem send_result_never_negative (conn : Connection) (ch : ChannelImpl) (frame : Frame) :
    (0 : Int) ≤ (ChannelImpl.send conn ch frame : Int) ∧
    (ch._state = ChannelState.state_connected →
      ((opStep conn ch frame).result = some false ↔ ChannelImpl.send conn ch frame = 0)) := by
  constructor
  · exact Int.ofNat_nonneg _
  · intro h
    simp [opStep, h]

/-- Witness for C10: with a transport that reports 0 bytes, a connected
channel observes the failure as result `false`, and the byte count cast to
the integers is nonnegative. -/
theorem send_result_never_negative_witness :
    (0 : Int) ≤ (ChannelImpl.send failConn chNoHandler Frame.channelClose : Int) ∧
    ((opStep failConn chNoHandler Frame.channelClose).result = some false ↔
      ChannelImpl.send failConn chNoHandler Frame.channelClose = 0) :=
  ⟨(send_result_never_negative failConn chNoHandler Frame.channelClose).1,
   (send_result_never_negative failConn chNoHandler Frame.channelClose).2 rfl⟩

/-- C3: the transaction flag starts `false`, is never changed by the
`startTransaction` call itself, becomes `true` only when the start-transaction
acknowledgment is reported, and is reset to `false` when a commit or rollback
acknowledgment is reported. -/
theorem transaction_flag_protocol :
    (∀ id handler, (newChannel id handler)._transaction = false) ∧
    (∀ conn ch, (step conn ch Event.startTransaction).channel._transaction = ch._transaction) ∧
    (∀ conn ch e, (step conn ch e).channel._transaction = true →
      ch._transaction = true ∨ e = Event.reportTransactionStarted) ∧
    (∀ conn ch, (step conn ch Event.reportTransactionStarted).channel._transaction = true) ∧
    (∀ conn ch, (step conn ch Event.reportTransactionCommitted).channel._transaction = false ∧
      (step conn ch Event.reportTransactionRolledBack).channel._transaction = false) := by
  refine ⟨fun id handler => rfl, fun conn ch => ?_, fun conn ch e h => ?_, fun conn ch => rfl,
    fun conn ch => ⟨rfl, rfl⟩⟩
  · rw [show (step conn ch Event.startTransaction) = opStep conn ch Frame.txSelect from rfl,
      opStep_channel]
  · cases e <;>
      simp_all [step, reportStep, opStep_channel, ChannelImpl.reportClosed,
        ChannelImpl.reportPaused, ChannelImpl.reportResumed, ChannelImpl.reportReady,
        ChannelImpl.reportChannelError, ChannelImpl.reportExchangeDeclared,
        ChannelImpl.reportExchangeDeleted, ChannelImpl.reportExchangeBound,
        ChannelImpl.reportExchangeUnbound, ChannelImpl.reportQueueDeclared,
        ChannelImpl.reportQueueBound, ChannelImpl.reportQueueUnbound,
        ChannelImpl.reportQueueDeleted, ChannelImpl.reportQueuePurged,
        ChannelImpl.reportTransactionStarted, ChannelImpl.reportTransactionCommitted,
        ChannelImpl.reportTransactionRolledBack]

/-- Witness for C3: on a concrete channel whose transaction flag is already
`true`, a `reportPaused` step leaving the flag `true` implies the flag was
already `true` beforehand (instantiating the only-on-ack conjunct). -/
theorem transaction_flag_protocol_witness :
    chTx._transaction = true ∨ Event.reportPaused = Event.reportTransactionStarted :=
  transaction_flag_protocol.2.2.1 okConn chTx Event.reportPaused (by decide)

/-- C4: the only events that mutate the connectivity state are `reportClosed`
and `reportChannelError`; `reportPaused`, `reportResumed`, `reportReady` and
all topology completion reports leave the whole channel record — connectivity
state, transaction flag, channel id, handler — unchanged. -/
theorem reports_leave_state_unchanged :
    (∀ conn ch e, (step conn ch e).channel._state ≠ ch._state →
      e = Event.reportClosed ∨ ∃ message, e = Event.reportChannelError message) ∧
    (∀ ch : ChannelImpl, ch.reportPaused.1 = ch ∧ ch.reportResumed.1 = ch ∧
      ch.reportReady.1 = ch ∧ ch.reportExchangeDeclared.1 = ch ∧
      ch.reportExchangeDeleted.1 = ch ∧ ch.reportExchangeBound.1 = ch ∧
      ch.reportExchangeUnbound.1 = ch ∧ ch.reportQueueBound.1 = ch ∧
      ch.reportQueueUnbound.1 = ch) ∧
    (∀ (ch : ChannelImpl) (queueName : String) (messageCount consumerCount : Nat),
      (ch.reportQueueDeclared queueName messageCount consumerCount).1 = ch) ∧
    (∀ (ch : ChannelImpl) (messageCount : Nat),
      (ch.reportQueueDeleted messageCount).1 = ch ∧
      (ch.reportQueuePurged messageCount).1 = ch) := by
  refine ⟨fun conn ch e h => ?_,
    fun ch => ⟨rfl, rfl, rfl, rfl, rfl, rfl, rfl, rfl, rfl⟩,
    fun ch queueName messageCount consumerCount => rfl,
    fun ch messageCount => ⟨rfl, rfl⟩⟩
  cases e <;>
    first
      | exact Or.inl rfl
      | exact Or.inr ⟨_, rfl⟩
      | exact absurd rfl h
      | simp [step, opStep_channel] at h

/-- Witness for C4: on a fresh channel, a `reportClosed` step that does change
the connectivity state instantiates the only-close-or-error conjunct. -/
theorem reports_leave_state_unchanged_witness :
    Event.reportClosed = Event.reportClosed ∨
    ∃ message, Event.reportClosed = Event.reportChannelError message :=
  reports_leave_state_unchanged.1 okConn (newChannel 1 true) Event.reportClosed (by decide)

/-- C5: when no handler is attached (`_handler` null), every report method is
a safe no-op with respect to handler notification: being total functions they
cannot fail or throw, and they invoke no callback. -/
theorem reports_noop_without_handler (ch : ChannelImpl) (h : ch._handler = false) :
    ch.reportClosed.2 = [] ∧
    (∀ message, (ch.reportChannelError message).2 = []) ∧
    ch.reportPaused.2 = [] ∧
    ch.reportResumed.2 = [] ∧
    ch.reportReady.2 = [] ∧
    ch.reportExchangeDeclared.2 = [] ∧
    ch.reportExchangeDeleted.2 = [] ∧
    ch.reportExchangeBound.2 = [] ∧
    ch.reportExchangeUnbound.2 = [] ∧
    (∀ queueName messageCount consumerCount,
      (ch.reportQueueDeclared queueName messageCount consumerCount).2 = []) ∧
    ch.reportQueueBound.2 = [] ∧
    ch.reportQueueUnbound.2 = [] ∧
    (∀ messageCount, (ch.reportQueueDeleted messageCount).2 = []) ∧
    (∀ messageCount, (ch.reportQueuePurged messageCount).2 = []) := by
  simp [ChannelImpl.reportClosed, ChannelImpl.reportChannelError,
    ChannelImpl.reportPaused, ChannelImpl.reportResumed, ChannelImpl.reportReady,
    ChannelImpl.reportExchangeDeclared, ChannelImpl.reportExchangeDeleted,
    ChannelImpl.reportExchangeBound, ChannelImpl.reportExchangeUnbound,
    ChannelImpl.reportQueueDeclared, ChannelImpl.reportQueueBound,
    ChannelImpl.reportQueueUnbound, ChannelImpl.reportQueueDeleted,
    ChannelImpl.reportQueuePurged, h]

/-- Witness for C5: on a concrete handlerless channel, `reportClosed`,
`reportChannelError` and `reportQueueDeclared` invoke no callback. -/
theorem reports_noop_without_handler_witness :
    chNoHandler.reportClosed.2 = [] ∧
    (chNoHandler.reportChannelError "oops").2 = [] ∧
    (chNoHandler.reportQueueDeclared "q1" 3 2).2 = [] :=
  ⟨(reports_noop_without_handler chNoHandler rfl).1,
   (reports_noop_without_handler chNoHandler rfl).2.1 "oops",
   (reports_noop_without_handler chNoHandler rfl).2.2.2.2.2.2.2.2.2.1 "q1" 3 2⟩

/-- C6: with a handler attached, each report method invokes exactly its
1:1-matching handler callback and no other, and the queue reports pass the
broker-reported name and counter arguments through verbatim. -/
theorem reports_invoke_matching_callback (ch : ChannelImpl) (h : ch._handler = true) :
    ch.reportClosed.2 = [HandlerEvent.onClosed] ∧
    (∀ message, (ch.reportChannelError message).2 = [HandlerEvent.onError message]) ∧
    ch.reportPaused.2 = [HandlerEvent.onPaused] ∧
    ch.reportResumed.2 = [HandlerEvent.onResumed] ∧
    ch.reportReady.2 = [HandlerEvent.onReady] ∧
    ch.reportExchangeDeclared.2 = [HandlerEvent.onExchangeDeclared] ∧
    ch.reportExchangeDeleted.2 = [HandlerEvent.onExchangeDeleted] ∧
    ch.reportExchangeBound.2 = [HandlerEvent.onExchangeBound] ∧
    ch.reportExchangeUnbound.2 = [HandlerEvent.onExchangeUnbound] ∧
    (∀ queueName messageCount consumerCount,
      (ch.reportQueueDeclared queueName messageCount consumerCount).2 =
        [HandlerEvent.onQueueDeclared queueName messageCount consumerCount]) ∧
    ch.reportQueueBound.2 = [HandlerEvent.onQueueBound] ∧
    ch.reportQueueUnbound.2 = [HandlerEvent.onQueueUnbound] ∧
    (∀ messageCount, (ch.reportQueueDeleted messageCount).2 =
      [HandlerEvent.onQueueDeleted messageCount]) ∧
    (∀ messageCount, (ch.reportQueuePurged messageCount).2 =
      [HandlerEvent.onQueuePurged messageCount]) := by
  simp [ChannelImpl.reportClosed, ChannelImpl.reportChannelError,
    ChannelImpl.reportPaused, ChannelImpl.reportResumed, ChannelImpl.reportReady,
    ChannelImpl.reportExchangeDeclared, ChannelImpl.reportExchangeDeleted,
    ChannelImpl.reportExchangeBound, ChannelImpl.reportExchangeUnbound,
    ChannelImpl.reportQueueDeclared, ChannelImpl.reportQueueBound,
    ChannelImpl.reportQueueUnbound, ChannelImpl.reportQueueDeleted,
    ChannelImpl.reportQueuePurged, h]

/-- Witness for C6: on a concrete channel with a handler, `reportQueueDeclared`
passes name `"q1"` and counters 3 and 2 through verbatim, and
`reportQueueBound` fires exactly `onQueueBound`. -/
theorem reports_invoke_matching_callback_witness :
    (chTx.reportQueueDeclared "q1" 3 2).2 = [HandlerEvent.onQueueDeclared "q1" 3 2] ∧
    chTx.reportQueueBound.2 = [HandlerEvent.onQueueBound] :=
  ⟨(reports_invoke_matching_callback chTx rfl).2.2.2.2.2.2.2.2.2.1 "q1" 3 2,
   (reports_invoke_matching_callback chTx rfl).2.2.2.2.2.2.2.2.2.2.1⟩

/-- C9: `reportClosed` and `reportChannelError` are idempotent on the channel
state — invoking either on an already-closed channel changes nothing, in any
combination — while the handler callback (if a handler is attached) is still
invoked again on every repeated call. -/
theorem report_closed_idempotent (ch : ChannelImpl) (message message2 : String) :
    ch.reportClosed.1.reportClosed.1 = ch.reportClosed.1 ∧
    ((ch.reportChannelError message).1.reportChannelError message2).1 =
      (ch.reportChannelError message).1 ∧
    (ch.reportClosed.1.reportChannelError message).1 = ch.reportClosed.1 ∧
    ((ch.reportChannelError message).1.reportClosed).1 = (ch.reportChannelError message).1 ∧
    ch.reportClosed.1.reportClosed.2 =
      (if ch._handler then [HandlerEvent.onClosed] else []) ∧
    ((ch.reportChannelError message).1.reportChannelError message2).2 =
      (if ch._handler then [HandlerEvent.onError message2] else []) :=
  ⟨rfl, rfl, rfl, rfl, rfl, rfl⟩

end AMQP
